import Mathlib

/-!
# CANopenNode STM32 driver target: frame access, BASEPRI critical sections, rxNew flags

A shallow embedding of `CANopenNode_STM32/CO_driver_target.h`.

* C integers are natural numbers; a cast to `uintN_t` is a reduction modulo `2 ^ N`.
* Pointers are natural numbers (addresses); `NULL` is `0`.
* The processor state touched by the header is the BASEPRI special register.  The two inline
  assembly functions are embedded instruction by instruction: `mrs rd, basepri` reads the
  register, `msr basepri, rn` stores the low eight bits of `rn` (BASEPRI is the field
  `[7:0]` of its special register, the upper bits are reserved), `isb` and `dsb` are barriers
  and change no value.
* `__NVIC_PRIO_BITS` comes from the CMSIS device header behind `main.h`; it is a parameter
  (`none` when the macro is not defined, which selects the `#else` branch).
-/

namespace CanOpenSTM32

/-! ## Received CAN message (lines 79-88) -/

/-- Platform CAN RX message: `uint32_t ident; uint8_t dlc; uint8_t data[8];`. -/
structure CO_CANrxMsg_t where
  ident : Nat
  dlc : Nat
  data : List Nat
deriving DecidableEq, Repr

/-- Values the C type can hold: a 32-bit identifier word, an 8-bit length, eight bytes. -/
def CO_CANrxMsg_t.WF (msg : CO_CANrxMsg_t) : Prop :=
  msg.ident < 2 ^ 32 ∧ msg.dlc < 2 ^ 8 ∧ msg.data.length = 8 ∧ ∀ b ∈ msg.data, b < 2 ^ 8

instance (msg : CO_CANrxMsg_t) : Decidable msg.WF := by
  unfold CO_CANrxMsg_t.WF
  infer_instance

/-- Macro `CO_CANrxMsg_readIdent(msg)`: `((uint16_t)(((CO_CANrxMsg_t*)(msg)))->ident)`. -/
def CO_CANrxMsg_readIdent (msg : CO_CANrxMsg_t) : Nat := msg.ident % 2 ^ 16

/-- Macro `CO_CANrxMsg_readDLC(msg)`: `((uint8_t)(((CO_CANrxMsg_t*)(msg)))->dlc)`. -/
def CO_CANrxMsg_readDLC (msg : CO_CANrxMsg_t) : Nat := msg.dlc % 2 ^ 8

/-- Macro `CO_CANrxMsg_readData(msg)`: `((uint8_t*)(((CO_CANrxMsg_t*)(msg)))->data)`, the
array member itself seen through a byte pointer. -/
def CO_CANrxMsg_readData (msg : CO_CANrxMsg_t) : List Nat := msg.data

/-- An extended (29-bit) frame, identifier `0x18FF50E5`, eight payload bytes. -/
def extendedFrame : CO_CANrxMsg_t :=
  { ident := 0x18FF50E5, dlc := 8, data := [1, 2, 3, 4, 5, 6, 7, 8] }

/-- A standard (11-bit) frame, identifier `0x181`, two payload bytes in use. -/
def standardFrame : CO_CANrxMsg_t :=
  { ident := 0x181, dlc := 2, data := [0xAB, 0xCD, 0, 0, 0, 0, 0, 0] }

/-! ## CAN module object (lines 107-127) -/

/-- The C struct `CO_CANmodule_t`, field by field.  Pointer members hold addresses, `bool_t`
members (`uint_fast8_t`) hold numbers. -/
structure CO_CANmodule_t where
  CANptr : Nat
  rxArray : Nat
  rxSize : Nat
  txArray : Nat
  txSize : Nat
  CANerrorStatus : Nat
  CANnormal : Nat
  useCANrxFilters : Nat
  bufferInhibitFlag : Nat
  firstCANtxMessage : Nat
  CANtxCount : Nat
  errOld : Nat
  primask_send : Nat
  primask_emcy : Nat
  primask_od : Nat
deriving DecidableEq, Repr

/-- What the lock macros read and write: the BASEPRI register and the module `CAN_MODULE`
points to. -/
structure Machine where
  basepri : Nat
  CAN_MODULE : CO_CANmodule_t
deriving DecidableEq, Repr

/-! ## Priority configuration (lines 143-156) -/

/-- Line 151. -/
def configLIBRARY_MAX_SYSCALL_INTERRUPT_PRIORITY : Nat := 13

/-- Lines 143-148: `__NVIC_PRIO_BITS` when CMSIS defines it, otherwise `4`. -/
def configPRIO_BITS (nvicPrioBits : Option Nat) : Nat :=
  match nvicPrioBits with
  | some n => n
  | none => 4

/-- Line 153: `configLIBRARY_MAX_SYSCALL_INTERRUPT_PRIORITY << (8 - configPRIO_BITS)`.  The C
shift count is only defined up to eight priority bits; results that depend on the value
assume `levelConfigured` or four priority bits. -/
def configMAX_SYSCALL_INTERRUPT_PRIORITY (nvicPrioBits : Option Nat) : Nat :=
  configLIBRARY_MAX_SYSCALL_INTERRUPT_PRIORITY <<< (8 - configPRIO_BITS nvicPrioBits)

/-! ## BASEPRI access (lines 160-186) -/

/-- Instruction `mrs rd, basepri`: the register content, zero extended. -/
def mrs_basepri (s : Machine) : Nat := s.basepri

/-- Instruction `msr basepri, rn`: the low eight bits of `rn` go to BASEPRI. -/
def msr_basepri (rn : Nat) (s : Machine) : Machine :=
  { s with basepri := rn % 2 ^ 8 }

/-- Function `ulPortRaiseBASEPRI` (lines 160-177): read BASEPRI into `ulOriginalBASEPRI`,
move the immediate `configMAX_SYSCALL_INTERRUPT_PRIORITY` into `ulNewBASEPRI`, write that to
BASEPRI, then `isb`, `dsb`; return `ulOriginalBASEPRI`. -/
def ulPortRaiseBASEPRI (nvicPrioBits : Option Nat) (s : Machine) : Nat × Machine :=
  let ulOriginalBASEPRI := mrs_basepri s
  let ulNewBASEPRI := configMAX_SYSCALL_INTERRUPT_PRIORITY nvicPrioBits
  (ulOriginalBASEPRI, msr_basepri ulNewBASEPRI s)

/-- Function `vPortSetBASEPRI` (lines 180-186): `msr basepri, ulNewMaskValue`. -/
def vPortSetBASEPRI (ulNewMaskValue : Nat) (s : Machine) : Machine :=
  msr_basepri ulNewMaskValue s

/-- Line 155. -/
def portSET_INTERRUPT_MASK_FROM_ISR (nvicPrioBits : Option Nat) (s : Machine) : Nat × Machine :=
  ulPortRaiseBASEPRI nvicPrioBits s

/-- Line 156. -/
def portCLEAR_INTERRUPT_MASK_FROM_ISR (x : Nat) (s : Machine) : Machine :=
  vPortSetBASEPRI x s

/-! ## Lock macros (lines 189-222) -/

/-- Macro body: `CAN_MODULE->primask_send = portSET_INTERRUPT_MASK_FROM_ISR();` -/
def CO_LOCK_CAN_SEND (nvicPrioBits : Option Nat) (s : Machine) : Machine :=
  let r := portSET_INTERRUPT_MASK_FROM_ISR nvicPrioBits s
  { r.2 with CAN_MODULE := { r.2.CAN_MODULE with primask_send := r.1 } }

/-- Macro body: `portCLEAR_INTERRUPT_MASK_FROM_ISR(CAN_MODULE->primask_send);` -/
def CO_UNLOCK_CAN_SEND (s : Machine) : Machine :=
  portCLEAR_INTERRUPT_MASK_FROM_ISR s.CAN_MODULE.primask_send s

/-- Macro body: `CAN_MODULE->primask_emcy = portSET_INTERRUPT_MASK_FROM_ISR();` -/
def CO_LOCK_EMCY (nvicPrioBits : Option Nat) (s : Machine) : Machine :=
  let r := portSET_INTERRUPT_MASK_FROM_ISR nvicPrioBits s
  { r.2 with CAN_MODULE := { r.2.CAN_MODULE with primask_emcy := r.1 } }

/-- Macro body: `portCLEAR_INTERRUPT_MASK_FROM_ISR(CAN_MODULE->primask_emcy);` -/
def CO_UNLOCK_EMCY (s : Machine) : Machine :=
  portCLEAR_INTERRUPT_MASK_FROM_ISR s.CAN_MODULE.primask_emcy s

/-- Macro body: `CAN_MODULE->primask_od = portSET_INTERRUPT_MASK_FROM_ISR();` -/
def CO_LOCK_OD (nvicPrioBits : Option Nat) (s : Machine) : Machine :=
  let r := portSET_INTERRUPT_MASK_FROM_ISR nvicPrioBits s
  { r.2 with CAN_MODULE := { r.2.CAN_MODULE with primask_od := r.1 } }

/-- Macro body: `portCLEAR_INTERRUPT_MASK_FROM_ISR(CAN_MODULE->primask_od);` -/
def CO_UNLOCK_OD (s : Machine) : Machine :=
  portCLEAR_INTERRUPT_MASK_FROM_ISR s.CAN_MODULE.primask_od s

/-- The three critical-section purposes, one per macro pair. -/
inductive Purpose where
  | send
  | emcy
  | od
deriving DecidableEq, Repr

/-- The `CO_LOCK_*` macro of a purpose. -/
def CO_LOCK (x : Purpose) (nvicPrioBits : Option Nat) (s : Machine) : Machine :=
  match x with
  | .send => CO_LOCK_CAN_SEND nvicPrioBits s
  | .emcy => CO_LOCK_EMCY nvicPrioBits s
  | .od => CO_LOCK_OD nvicPrioBits s

/-- The `CO_UNLOCK_*` macro of a purpose. -/
def CO_UNLOCK (x : Purpose) (s : Machine) : Machine :=
  match x with
  | .send => CO_UNLOCK_CAN_SEND s
  | .emcy => CO_UNLOCK_EMCY s
  | .od => CO_UNLOCK_OD s

/-- The saved-mask member a purpose uses. -/
def primask (x : Purpose) (m : CO_CANmodule_t) : Nat :=
  match x with
  | .send => m.primask_send
  | .emcy => m.primask_emcy
  | .od => m.primask_od

/-- Masking rule of the BASEPRI register: `0` masks nothing, a non-zero value masks every
interrupt whose priority value is numerically greater than or equal to it (line 150: lower
priorities are higher numeric values). -/
def basepriBlocks (basepri prio : Nat) : Bool :=
  basepri != 0 && decide (basepri ≤ prio)

/-- Priority value of a priority level: the level sits in the top `configPRIO_BITS` bits of
the 8-bit priority field, the same encoding line 153 applies to level 13. -/
def priorityValue (nvicPrioBits : Option Nat) (level : Nat) : Nat :=
  level <<< (8 - configPRIO_BITS nvicPrioBits)

/-- The priority level 13 of line 151 exists and the shift of line 153 is defined:
`13 < 2 ^ configPRIO_BITS` and `configPRIO_BITS ≤ 8`. -/
def levelConfigured (nvicPrioBits : Option Nat) : Prop :=
  configLIBRARY_MAX_SYSCALL_INTERRUPT_PRIORITY < 2 ^ configPRIO_BITS nvicPrioBits ∧
    configPRIO_BITS nvicPrioBits ≤ 8

instance (nvicPrioBits : Option Nat) : Decidable (levelConfigured nvicPrioBits) := by
  unfold levelConfigured
  infer_instance

/-- A module with recognisable contents in every member. -/
def sampleModule : CO_CANmodule_t :=
  { CANptr := 0x40006400, rxArray := 0x20000100, rxSize := 12, txArray := 0x20000200,
    txSize := 8, CANerrorStatus := 0, CANnormal := 1, useCANrxFilters := 0,
    bufferInhibitFlag := 0, firstCANtxMessage := 1, CANtxCount := 3, errOld := 0,
    primask_send := 7, primask_emcy := 9, primask_od := 11 }

/-- A machine state with BASEPRI `m` and the sample module. -/
def sampleMachine (m : Nat) : Machine :=
  { basepri := m, CAN_MODULE := sampleModule }

/-! ## Synchronisation flags (lines 225-237) -/

/-- The null pointer. -/
def NULL : Nat := 0

/-- Line 226: `CO_MemoryBarrier()` expands to nothing. -/
def CO_MemoryBarrier (rxNew : Nat) : Nat := rxNew

/-- Line 227: `((rxNew) != NULL)`; the result and the cell after the evaluation. -/
def CO_FLAG_READ (rxNew : Nat) : Bool × Nat :=
  (rxNew != NULL, rxNew)

/-- Lines 228-232: `CO_MemoryBarrier(); rxNew = (void*)1L;`, the cell afterwards. -/
def CO_FLAG_SET (rxNew : Nat) : Nat :=
  let _rxNew := CO_MemoryBarrier rxNew
  1

/-- Lines 233-237: `CO_MemoryBarrier(); rxNew = NULL;`, the cell afterwards. -/
def CO_FLAG_CLEAR (rxNew : Nat) : Nat :=
  let _rxNew := CO_MemoryBarrier rxNew
  NULL

/-- A write operation on a flag. -/
inductive FlagOp where
  | set
  | clear
deriving DecidableEq, Repr

/-- One flag write. -/
def FlagOp.run (op : FlagOp) (rxNew : Nat) : Nat :=
  match op with
  | .set => CO_FLAG_SET rxNew
  | .clear => CO_FLAG_CLEAR rxNew

/-- A sequence of flag writes, the first element of the list first. -/
def runFlagOps (ops : List FlagOp) (rxNew : Nat) : Nat :=
  ops.foldl (fun cell op => op.run cell) rxNew

/-! ## Helper lemmas -/

theorem levelConfigured_bounds (nvicPrioBits : Option Nat) (h : levelConfigured nvicPrioBits) :
    0 < configMAX_SYSCALL_INTERRUPT_PRIORITY nvicPrioBits ∧
      configMAX_SYSCALL_INTERRUPT_PRIORITY nvicPrioBits < 2 ^ 8 := by
  obtain ⟨h1, h2⟩ := h
  unfold configMAX_SYSCALL_INTERRUPT_PRIORITY
  unfold configLIBRARY_MAX_SYSCALL_INTERRUPT_PRIORITY at *
  generalize configPRIO_BITS nvicPrioBits = n at *
  have h4 : 4 ≤ n := by
    by_contra hlt
    have : n ≤ 3 := by omega
    interval_cases n <;> simp at h1
  interval_cases n <;> decide

theorem runFlagOps_concat (ops : List FlagOp) (op : FlagOp) (rxNew : Nat) :
    runFlagOps (ops ++ [op]) rxNew = op.run (runFlagOps ops rxNew) := by
  simp [runFlagOps, List.foldl_append]

theorem runFlagOps_values (ops : List FlagOp) :
    runFlagOps ops NULL = NULL ∨ runFlagOps ops NULL = 1 := by
  induction ops using List.reverseRecOn with
  | nil => left; rfl
  | append_singleton l op _ =>
    rw [runFlagOps_concat]
    cases op
    · right; rfl
    · left; rfl

theorem CO_LOCK_basepri (x : Purpose) (nvicPrioBits : Option Nat) (s : Machine) :
    (CO_LOCK x nvicPrioBits s).basepri =
      configMAX_SYSCALL_INTERRUPT_PRIORITY nvicPrioBits % 2 ^ 8 := by
  cases x <;>
    simp [CO_LOCK, CO_LOCK_CAN_SEND, CO_LOCK_EMCY, CO_LOCK_OD, portSET_INTERRUPT_MASK_FROM_ISR,
      ulPortRaiseBASEPRI, msr_basepri]

theorem CO_LOCK_primask (x y : Purpose) (nvicPrioBits : Option Nat) (s : Machine) :
    primask y (CO_LOCK x nvicPrioBits s).CAN_MODULE =
      if y = x then s.basepri else primask y s.CAN_MODULE := by
  cases x <;> cases y <;>
    simp [CO_LOCK, primask, CO_LOCK_CAN_SEND, CO_LOCK_EMCY, CO_LOCK_OD,
      portSET_INTERRUPT_MASK_FROM_ISR, ulPortRaiseBASEPRI, msr_basepri, mrs_basepri]

theorem CO_UNLOCK_basepri (x : Purpose) (s : Machine) :
    (CO_UNLOCK x s).basepri = primask x s.CAN_MODULE % 2 ^ 8 := by
  cases x <;>
    simp [CO_UNLOCK, primask, CO_UNLOCK_CAN_SEND, CO_UNLOCK_EMCY, CO_UNLOCK_OD,
      portCLEAR_INTERRUPT_MASK_FROM_ISR, vPortSetBASEPRI, msr_basepri]

theorem CO_UNLOCK_module (x : Purpose) (s : Machine) :
    (CO_UNLOCK x s).CAN_MODULE = s.CAN_MODULE := by
  cases x <;>
    simp [CO_UNLOCK, CO_UNLOCK_CAN_SEND, CO_UNLOCK_EMCY, CO_UNLOCK_OD,
      portCLEAR_INTERRUPT_MASK_FROM_ISR, vPortSetBASEPRI, msr_basepri]

theorem basepriBlocks_iff (basepri prio : Nat) :
    basepriBlocks basepri prio = true ↔ basepri ≠ 0 ∧ basepri ≤ prio := by
  simp [basepriBlocks]

/-! ## Claims -/

/-- C1: flag protocol. `CO_FLAG_READ` leaves the cell as it was; reading a `NULL` cell gives
false; reading after `CO_FLAG_SET` gives true; reading after `CO_FLAG_CLEAR` gives false; and
set, then clear, then read gives false, for every earlier cell value `f`. -/
theorem C1_flag_protocol (f : Nat) :
    (CO_FLAG_READ f).2 = f ∧
      (CO_FLAG_READ NULL).1 = false ∧
      (CO_FLAG_READ (CO_FLAG_SET f)).1 = true ∧
      (CO_FLAG_READ (CO_FLAG_CLEAR f)).1 = false ∧
      (CO_FLAG_READ (CO_FLAG_CLEAR (CO_FLAG_SET f))).1 = false := by
  refine ⟨rfl, rfl, rfl, rfl, rfl⟩

/-- C2: lock then unlock restores BASEPRI. For every purpose `x`, every module state and every
BASEPRI value `m = s.basepri` the register can hold, `CO_UNLOCK_x` after `CO_LOCK_x` leaves
BASEPRI equal to `m`; the same holds from any later state `t` in which the `primask_x` member
still has the value the lock stored, whatever else happened in between. -/
theorem C2_lock_unlock_restores (x : Purpose) (nvicPrioBits : Option Nat) (s t : Machine)
    (hm : s.basepri < 2 ^ 8)
    (hslot : primask x t.CAN_MODULE = primask x (CO_LOCK x nvicPrioBits s).CAN_MODULE) :
    (CO_UNLOCK x (CO_LOCK x nvicPrioBits s)).basepri = s.basepri ∧
      (CO_UNLOCK x t).basepri = s.basepri := by
  have hmod : s.basepri % 2 ^ 8 = s.basepri := Nat.mod_eq_of_lt hm
  cases x <;>
    simp_all [CO_LOCK, CO_UNLOCK, primask, CO_LOCK_CAN_SEND, CO_UNLOCK_CAN_SEND, CO_LOCK_EMCY,
      CO_UNLOCK_EMCY, CO_LOCK_OD, CO_UNLOCK_OD, portSET_INTERRUPT_MASK_FROM_ISR,
      portCLEAR_INTERRUPT_MASK_FROM_ISR, ulPortRaiseBASEPRI, vPortSetBASEPRI, msr_basepri,
      mrs_basepri]

/-- C2 at a concrete input: BASEPRI `0x40`, the emergency purpose, default priority bits. -/
theorem C2_lock_unlock_restores_witness :
    (sampleMachine 0x40).basepri < 2 ^ 8 ∧
      (CO_UNLOCK .emcy (CO_LOCK .emcy none (sampleMachine 0x40))).basepri = 0x40 ∧
      (CO_UNLOCK .emcy
        { CO_LOCK .emcy none (sampleMachine 0x40) with basepri := 0 }).basepri = 0x40 :=
  ⟨by decide,
    (C2_lock_unlock_restores .emcy none (sampleMachine 0x40)
      { CO_LOCK .emcy none (sampleMachine 0x40) with basepri := 0 } (by decide) rfl).1,
    (C2_lock_unlock_restores .emcy none (sampleMachine 0x40)
      { CO_LOCK .emcy none (sampleMachine 0x40) with basepri := 0 } (by decide) rfl).2⟩

/-- C3: what a lock leaves behind. With four priority bits (the default), for every purpose
`x` and prior BASEPRI value `m = s.basepri`: after `CO_LOCK_x` the `primask_x` member holds
`m`, BASEPRI equals `configMAX_SYSCALL_INTERRUPT_PRIORITY`, that constant is 208, non-zero and
below `2 ^ 8`, and among the priority levels 0..15 exactly the levels 13, 14 and 15 are
blocked. -/
theorem C3_lock_saves_and_raises (x : Purpose) (nvicPrioBits : Option Nat) (s : Machine)
    (hbits : configPRIO_BITS nvicPrioBits = 4) :
    primask x (CO_LOCK x nvicPrioBits s).CAN_MODULE = s.basepri ∧
      (CO_LOCK x nvicPrioBits s).basepri = configMAX_SYSCALL_INTERRUPT_PRIORITY nvicPrioBits ∧
      configMAX_SYSCALL_INTERRUPT_PRIORITY nvicPrioBits = 208 ∧
      configMAX_SYSCALL_INTERRUPT_PRIORITY nvicPrioBits ≠ 0 ∧
      configMAX_SYSCALL_INTERRUPT_PRIORITY nvicPrioBits < 2 ^ 8 ∧
      ∀ level, level < 16 →
        (basepriBlocks (CO_LOCK x nvicPrioBits s).basepri (priorityValue nvicPrioBits level) = true
          ↔ 13 ≤ level) := by
  have hT : configMAX_SYSCALL_INTERRUPT_PRIORITY nvicPrioBits = 208 := by
    simp [configMAX_SYSCALL_INTERRUPT_PRIORITY, hbits,
      configLIBRARY_MAX_SYSCALL_INTERRUPT_PRIORITY]
  have hB : (CO_LOCK x nvicPrioBits s).basepri = 208 := by
    rw [CO_LOCK_basepri, hT]; decide
  refine ⟨?_, ?_, hT, ?_, ?_, ?_⟩
  · rw [CO_LOCK_primask]; simp
  · rw [hB, hT]
  · rw [hT]; decide
  · rw [hT]; decide
  · intro level _
    rw [hB, basepriBlocks_iff]
    simp only [priorityValue, hbits, Nat.shiftLeft_eq]
    omega

/-- C3 at a concrete input: object-dictionary lock, BASEPRI `0x40`, `__NVIC_PRIO_BITS` 4. -/
theorem C3_lock_saves_and_raises_witness :
    configPRIO_BITS (some 4) = 4 ∧
      primask .od (CO_LOCK .od (some 4) (sampleMachine 0x40)).CAN_MODULE = 0x40 ∧
      (CO_LOCK .od (some 4) (sampleMachine 0x40)).basepri = 208 ∧
      basepriBlocks (CO_LOCK .od (some 4) (sampleMachine 0x40)).basepri
        (priorityValue (some 4) 13) = true ∧
      basepriBlocks (CO_LOCK .od (some 4) (sampleMachine 0x40)).basepri
        (priorityValue (some 4) 12) = false :=
  have h := C3_lock_saves_and_raises .od (some 4) (sampleMachine 0x40) rfl
  ⟨rfl, h.1, h.2.1.trans h.2.2.1, (h.2.2.2.2.2 13 (by decide)).2 (by decide), by decide⟩

/-- C4, as stated, fails: with BASEPRI `0x10` the priority value `0x50` is blocked before
`CO_LOCK_CAN_SEND` and no longer blocked after it. -/
theorem C4_lock_lowers_counterexample :
    basepriBlocks (sampleMachine 0x10).basepri 0x50 = true ∧
      basepriBlocks (CO_LOCK .send none (sampleMachine 0x10)).basepri 0x50 = false := by
  decide

/-- C4, amended: `CO_LOCK_x` writes the threshold to BASEPRI unconditionally. For every
purpose `x` and prior BASEPRI value `m = s.basepri`: after `CO_LOCK_x` BASEPRI equals
`configMAX_SYSCALL_INTERRUPT_PRIORITY` whatever `m` was; every priority blocked before the
lock is still blocked after it if and only if `m = 0` or
`configMAX_SYSCALL_INTERRUPT_PRIORITY ≤ m`; and a stronger prior mask, `0 < m < threshold`,
is replaced by the threshold, so every priority from `m` up to the threshold was blocked
before the lock and is not blocked after it. -/
theorem C4_lock_keeps_blocked_iff (x : Purpose) (nvicPrioBits : Option Nat) (s : Machine)
    (hcfg : levelConfigured nvicPrioBits) :
    (CO_LOCK x nvicPrioBits s).basepri = configMAX_SYSCALL_INTERRUPT_PRIORITY nvicPrioBits ∧
      ((∀ prio, basepriBlocks s.basepri prio = true →
          basepriBlocks (CO_LOCK x nvicPrioBits s).basepri prio = true) ↔
        (s.basepri = 0 ∨ configMAX_SYSCALL_INTERRUPT_PRIORITY nvicPrioBits ≤ s.basepri)) ∧
      (0 < s.basepri → s.basepri < configMAX_SYSCALL_INTERRUPT_PRIORITY nvicPrioBits →
        ∀ prio, s.basepri ≤ prio → prio < configMAX_SYSCALL_INTERRUPT_PRIORITY nvicPrioBits →
          basepriBlocks s.basepri prio = true ∧
            basepriBlocks (CO_LOCK x nvicPrioBits s).basepri prio = false) := by
  obtain ⟨hpos, hlt⟩ := levelConfigured_bounds nvicPrioBits hcfg
  have hB : (CO_LOCK x nvicPrioBits s).basepri =
      configMAX_SYSCALL_INTERRUPT_PRIORITY nvicPrioBits := by
    rw [CO_LOCK_basepri, Nat.mod_eq_of_lt hlt]
  refine ⟨hB, ?_, ?_⟩
  · rw [hB]
    simp only [basepriBlocks_iff]
    constructor
    · intro h
      by_cases h0 : s.basepri = 0
      · exact Or.inl h0
      · exact Or.inr (h s.basepri ⟨h0, le_refl _⟩).2
    · rintro (h0 | hle) prio ⟨hne, hp⟩
      · exact absurd h0 hne
      · exact ⟨by omega, by omega⟩
  · intro hm0 _ prio hle hltp
    rw [hB]
    refine ⟨(basepriBlocks_iff _ _).2 ⟨by omega, hle⟩, ?_⟩
    cases hb : basepriBlocks (configMAX_SYSCALL_INTERRUPT_PRIORITY nvicPrioBits) prio with
    | false => rfl
    | true =>
      have := ((basepriBlocks_iff _ _).1 hb).2
      omega

/-- C4 amended, at concrete inputs with the default priority bits. From BASEPRI `0xE0`
(level 14) the emergency lock writes 208 and the priority value `0xF0` stays blocked; from
BASEPRI `0x10` (level 1) the lock writes 208 as well and the priority value `0x50`, blocked
before, is not blocked after. -/
theorem C4_lock_keeps_blocked_iff_witness :
    levelConfigured none ∧
      (CO_LOCK .emcy none (sampleMachine 0xE0)).basepri = 208 ∧
      basepriBlocks (sampleMachine 0xE0).basepri 0xF0 = true ∧
      basepriBlocks (CO_LOCK .emcy none (sampleMachine 0xE0)).basepri 0xF0 = true ∧
      (CO_LOCK .emcy none (sampleMachine 0x10)).basepri = 208 ∧
      basepriBlocks (CO_LOCK .emcy none (sampleMachine 0x10)).basepri 0x50 = false :=
  ⟨by decide,
    (C4_lock_keeps_blocked_iff .emcy none (sampleMachine 0xE0) (by decide)).1,
    by decide,
    (C4_lock_keeps_blocked_iff .emcy none (sampleMachine 0xE0) (by decide)).2.1.2
      (Or.inr (by decide)) 0xF0 (by decide),
    (C4_lock_keeps_blocked_iff .emcy none (sampleMachine 0x10) (by decide)).1,
    ((C4_lock_keeps_blocked_iff .emcy none (sampleMachine 0x10) (by decide)).2.2
      (by decide) (by decide) 0x50 (by decide) (by decide)).2⟩

/-- C5: nesting two different purposes. For distinct purposes `P` and `Q`, every module state
and every BASEPRI value `m = s.basepri` the register can hold, the sequence `CO_LOCK_P`,
`CO_LOCK_Q`, `CO_UNLOCK_Q`, `CO_UNLOCK_P` ends with BASEPRI equal to `m`, and BASEPRI equals
`configMAX_SYSCALL_INTERRUPT_PRIORITY` after each of the first three steps. -/
theorem C5_nested_distinct_purposes (P Q : Purpose) (nvicPrioBits : Option Nat) (s : Machine)
    (hPQ : P ≠ Q) (hcfg : levelConfigured nvicPrioBits) (hm : s.basepri < 2 ^ 8) :
    (CO_LOCK P nvicPrioBits s).basepri = configMAX_SYSCALL_INTERRUPT_PRIORITY nvicPrioBits ∧
      (CO_LOCK Q nvicPrioBits (CO_LOCK P nvicPrioBits s)).basepri =
        configMAX_SYSCALL_INTERRUPT_PRIORITY nvicPrioBits ∧
      (CO_UNLOCK Q (CO_LOCK Q nvicPrioBits (CO_LOCK P nvicPrioBits s))).basepri =
        configMAX_SYSCALL_INTERRUPT_PRIORITY nvicPrioBits ∧
      (CO_UNLOCK P (CO_UNLOCK Q (CO_LOCK Q nvicPrioBits (CO_LOCK P nvicPrioBits s)))).basepri =
        s.basepri := by
  obtain ⟨_, hlt⟩ := levelConfigured_bounds nvicPrioBits hcfg
  have hT := Nat.mod_eq_of_lt hlt
  refine ⟨?_, ?_, ?_, ?_⟩
  · rw [CO_LOCK_basepri, hT]
  · rw [CO_LOCK_basepri, hT]
  · rw [CO_UNLOCK_basepri, CO_LOCK_primask, if_pos rfl, CO_LOCK_basepri, hT, hT]
  · rw [CO_UNLOCK_basepri, CO_UNLOCK_module, CO_LOCK_primask, if_neg hPQ, CO_LOCK_primask,
      if_pos rfl]
    exact Nat.mod_eq_of_lt hm

/-- C5 at a concrete input: send outside, object dictionary inside, BASEPRI `0x40`. -/
theorem C5_nested_distinct_purposes_witness :
    Purpose.send ≠ Purpose.od ∧ levelConfigured none ∧ (sampleMachine 0x40).basepri < 2 ^ 8 ∧
      (CO_UNLOCK .od (CO_LOCK .od none (CO_LOCK .send none (sampleMachine 0x40)))).basepri =
        configMAX_SYSCALL_INTERRUPT_PRIORITY none ∧
      (CO_UNLOCK .send (CO_UNLOCK .od
        (CO_LOCK .od none (CO_LOCK .send none (sampleMachine 0x40))))).basepri = 0x40 :=
  have h := C5_nested_distinct_purposes .send .od none (sampleMachine 0x40) (by decide)
    (by decide) (by decide)
  ⟨by decide, by decide, by decide, h.2.2.1, h.2.2.2⟩

/-- C6: nesting one purpose twice. For every purpose `P` and prior BASEPRI value
`m = s.basepri`: the first `CO_LOCK_P` stores `m` in `primask_P`, the second one overwrites it
with `configMAX_SYSCALL_INTERRUPT_PRIORITY`; after `CO_LOCK_P`, `CO_LOCK_P`, `CO_UNLOCK_P`,
`CO_UNLOCK_P` BASEPRI equals the value the inner lock saved, which is that threshold, so it
differs from `m` whenever `m` is not the threshold, and `primask_P` no longer holds `m`. -/
theorem C6_nested_same_purpose (P : Purpose) (nvicPrioBits : Option Nat) (s : Machine)
    (hcfg : levelConfigured nvicPrioBits) :
    primask P (CO_LOCK P nvicPrioBits s).CAN_MODULE = s.basepri ∧
      primask P (CO_LOCK P nvicPrioBits (CO_LOCK P nvicPrioBits s)).CAN_MODULE =
        configMAX_SYSCALL_INTERRUPT_PRIORITY nvicPrioBits ∧
      (CO_UNLOCK P (CO_UNLOCK P
          (CO_LOCK P nvicPrioBits (CO_LOCK P nvicPrioBits s)))).basepri =
        primask P (CO_LOCK P nvicPrioBits (CO_LOCK P nvicPrioBits s)).CAN_MODULE ∧
      (CO_UNLOCK P (CO_UNLOCK P
          (CO_LOCK P nvicPrioBits (CO_LOCK P nvicPrioBits s)))).basepri =
        configMAX_SYSCALL_INTERRUPT_PRIORITY nvicPrioBits ∧
      (s.basepri ≠ configMAX_SYSCALL_INTERRUPT_PRIORITY nvicPrioBits →
        (CO_UNLOCK P (CO_UNLOCK P
            (CO_LOCK P nvicPrioBits (CO_LOCK P nvicPrioBits s)))).basepri ≠ s.basepri ∧
          primask P (CO_LOCK P nvicPrioBits (CO_LOCK P nvicPrioBits s)).CAN_MODULE ≠
            s.basepri) := by
  obtain ⟨_, hlt⟩ := levelConfigured_bounds nvicPrioBits hcfg
  have hT := Nat.mod_eq_of_lt hlt
  have hslot : primask P (CO_LOCK P nvicPrioBits (CO_LOCK P nvicPrioBits s)).CAN_MODULE =
      configMAX_SYSCALL_INTERRUPT_PRIORITY nvicPrioBits := by
    rw [CO_LOCK_primask, if_pos rfl, CO_LOCK_basepri, hT]
  have hfin : (CO_UNLOCK P (CO_UNLOCK P
      (CO_LOCK P nvicPrioBits (CO_LOCK P nvicPrioBits s)))).basepri =
      configMAX_SYSCALL_INTERRUPT_PRIORITY nvicPrioBits := by
    rw [CO_UNLOCK_basepri, CO_UNLOCK_module, hslot, hT]
  refine ⟨?_, hslot, ?_, hfin, ?_⟩
  · rw [CO_LOCK_primask, if_pos rfl]
  · rw [hfin, hslot]
  · intro hne
    rw [hfin, hslot]
    exact ⟨fun h => hne h.symm, fun h => hne h.symm⟩

/-- C6 at a concrete input: BASEPRI 0 (nothing masked) before a doubly nested send lock;
afterwards BASEPRI is left at 208 instead of 0. -/
theorem C6_nested_same_purpose_witness :
    levelConfigured none ∧
      (CO_UNLOCK .send (CO_UNLOCK .send
        (CO_LOCK .send none (CO_LOCK .send none (sampleMachine 0))))).basepri = 208 ∧
      (CO_UNLOCK .send (CO_UNLOCK .send
        (CO_LOCK .send none (CO_LOCK .send none (sampleMachine 0))))).basepri ≠
          (sampleMachine 0).basepri :=
  have h := C6_nested_same_purpose .send none (sampleMachine 0) (by decide)
  ⟨by decide, h.2.2.2.1, (h.2.2.2.2 (by decide)).1⟩

/-- C9: the purposes keep separate saved masks. `CO_LOCK_CAN_SEND` leaves a module equal to
the old one except for `primask_send`, `CO_LOCK_EMCY` except for `primask_emcy`, `CO_LOCK_OD`
except for `primask_od`; each `CO_UNLOCK_*` leaves the whole module as it was and changes
BASEPRI only. -/
theorem C9_lock_frame (nvicPrioBits : Option Nat) (s : Machine) :
    (CO_LOCK_CAN_SEND nvicPrioBits s).CAN_MODULE =
        { s.CAN_MODULE with
          primask_send := (CO_LOCK_CAN_SEND nvicPrioBits s).CAN_MODULE.primask_send } ∧
      (CO_LOCK_EMCY nvicPrioBits s).CAN_MODULE =
        { s.CAN_MODULE with
          primask_emcy := (CO_LOCK_EMCY nvicPrioBits s).CAN_MODULE.primask_emcy } ∧
      (CO_LOCK_OD nvicPrioBits s).CAN_MODULE =
        { s.CAN_MODULE with
          primask_od := (CO_LOCK_OD nvicPrioBits s).CAN_MODULE.primask_od } ∧
      (CO_UNLOCK_CAN_SEND s).CAN_MODULE = s.CAN_MODULE ∧
      (CO_UNLOCK_EMCY s).CAN_MODULE = s.CAN_MODULE ∧
      (CO_UNLOCK_OD s).CAN_MODULE = s.CAN_MODULE ∧
      CO_UNLOCK_CAN_SEND s = { s with basepri := (CO_UNLOCK_CAN_SEND s).basepri } ∧
      CO_UNLOCK_EMCY s = { s with basepri := (CO_UNLOCK_EMCY s).basepri } ∧
      CO_UNLOCK_OD s = { s with basepri := (CO_UNLOCK_OD s).basepri } := by
  refine ⟨rfl, rfl, rfl, rfl, rfl, rfl, rfl, rfl, rfl⟩

/-- C7, as stated, fails: the extended frame holds the valid 29-bit identifier `0x18FF50E5`,
and `CO_CANrxMsg_readIdent` returns `0x50E5`, not the stored identifier. -/
theorem C7_readIdent_extended_counterexample :
    extendedFrame.WF ∧ extendedFrame.ident < 2 ^ 29 ∧
      CO_CANrxMsg_readIdent extendedFrame = 0x50E5 ∧
      CO_CANrxMsg_readIdent extendedFrame ≠ extendedFrame.ident := by
  decide

/-- C7, amended: for every `CO_CANrxMsg_t`, `CO_CANrxMsg_readIdent` returns the stored
identifier modulo `2 ^ 16`; that is the stored identifier unchanged exactly when it is below
`2 ^ 16`, so for every 11-bit identifier; `CO_CANrxMsg_readDLC` returns the stored `dlc` and
`CO_CANrxMsg_readData` the stored 8-byte payload. -/
theorem C7_read_accessors (msg : CO_CANrxMsg_t) (hwf : msg.WF) :
    CO_CANrxMsg_readIdent msg = msg.ident % 2 ^ 16 ∧
      (CO_CANrxMsg_readIdent msg = msg.ident ↔ msg.ident < 2 ^ 16) ∧
      (msg.ident < 2 ^ 11 → CO_CANrxMsg_readIdent msg = msg.ident) ∧
      CO_CANrxMsg_readDLC msg = msg.dlc ∧
      CO_CANrxMsg_readData msg = msg.data ∧
      (CO_CANrxMsg_readData msg).length = 8 := by
  obtain ⟨_, hdlc, hlen, _⟩ := hwf
  have hiff : CO_CANrxMsg_readIdent msg = msg.ident ↔ msg.ident < 2 ^ 16 := by
    unfold CO_CANrxMsg_readIdent
    constructor
    · intro h
      have := Nat.mod_lt msg.ident (show 0 < 2 ^ 16 by decide)
      omega
    · exact Nat.mod_eq_of_lt
  refine ⟨rfl, hiff, ?_, Nat.mod_eq_of_lt hdlc, rfl, hlen⟩
  intro h11
  exact hiff.2 (lt_trans h11 (by decide))

/-- C7 amended, at a concrete input: the standard frame with identifier `0x181`. -/
theorem C7_read_accessors_witness :
    standardFrame.WF ∧ standardFrame.ident < 2 ^ 11 ∧
      CO_CANrxMsg_readIdent standardFrame = 0x181 ∧
      CO_CANrxMsg_readDLC standardFrame = 2 ∧
      CO_CANrxMsg_readData standardFrame = [0xAB, 0xCD, 0, 0, 0, 0, 0, 0] :=
  have h := C7_read_accessors standardFrame (by decide)
  ⟨by decide, by decide, h.2.2.1 (by decide), h.2.2.2.1, h.2.2.2.2.1⟩

/-- C10: reachable flag states. For every finite sequence of `CO_FLAG_SET` and
`CO_FLAG_CLEAR` applied to a cell that starts as `NULL`: after every initial part of the
sequence the cell is `NULL` or `(void*)1`, two different values that are both reached;
`CO_FLAG_READ` at the end is true exactly when the sequence is non-empty and its last
operation is `CO_FLAG_SET`; and set after set equals set, clear after clear equals clear. -/
theorem C10_flag_reachable_states (ops : List FlagOp) :
    (∀ k, runFlagOps (ops.take k) NULL = NULL ∨ runFlagOps (ops.take k) NULL = 1) ∧
      (NULL ≠ 1 ∧ runFlagOps [] NULL = NULL ∧ runFlagOps [FlagOp.set] NULL = 1) ∧
      ((CO_FLAG_READ (runFlagOps ops NULL)).1 = true ↔ ops.getLast? = some FlagOp.set) ∧
      (∀ f, CO_FLAG_SET (CO_FLAG_SET f) = CO_FLAG_SET f) ∧
      (∀ f, CO_FLAG_CLEAR (CO_FLAG_CLEAR f) = CO_FLAG_CLEAR f) ∧
      (∀ f, runFlagOps [FlagOp.set, FlagOp.set] f = runFlagOps [FlagOp.set] f) ∧
      (∀ f, runFlagOps [FlagOp.clear, FlagOp.clear] f = runFlagOps [FlagOp.clear] f) := by
  refine ⟨fun k => runFlagOps_values _, ⟨by decide, rfl, rfl⟩, ?_, fun _ => rfl, fun _ => rfl,
    fun _ => rfl, fun _ => rfl⟩
  induction ops using List.reverseRecOn with
  | nil => decide
  | append_singleton l op _ =>
    rw [runFlagOps_concat, List.getLast?_append]
    cases op <;> simp [FlagOp.run, CO_FLAG_READ, CO_FLAG_SET, CO_FLAG_CLEAR, NULL]

end CanOpenSTM32
